import Mathlib

/-!
Verification of the PEDump plugin (volatility3/framework/plugins/windows/pedump.py).

The plugin's orchestration shell is embedded shallowly:

* `peFileName` is the output file name built by `PEDump._write_pe`
  (`"PE.{:#x}.{:d}.{:#x}.dmp".format(proc_offset, pid, base)`).
* `write_pe` models `PEDump._write_pe`: open the output handle, parse the DOS
  header, iterate the reconstruction generator writing each `(offset, data)`
  instruction, catching `IOError`/`VolatilityException`/`OverflowError`/
  `ValueError` into a debug log and a skipped target; `file_handle.close()`
  runs only after the loop completes, and since it sits outside the
  try/except an `IOError` it raises escapes `_write_pe` uncaught and aborts
  the batch.  The side effects are recorded as an `Event` trace.
* `dump_kernel`, `dump_processes`, `generator` model `PEDump._dump_kernel`,
  `PEDump._dump_processes` and `PEDump._generator`.
* External collaborators that live outside the staged source
  (`modules.Modules.find_session_layer`, `pslist.PsList.create_pid_filter`,
  and the PE reconstruction engine behind `dos_header.reconstruct()`) are
  modelled from the spec, marked as such in their doc comments.
-/

/-- Digit character for a value below 16, as Python's `{:x}`/`{:d}` formatting
produces it: `0`-`9` then lowercase `a`-`f`. -/
def digitChar (d : Nat) : Char :=
  Char.ofNat (if d < 10 then 48 + d else 87 + d)

/-- Numeric value of a digit character, inverse of `digitChar`. -/
def digitVal (c : Char) : Nat :=
  if 97 ≤ c.toNat then c.toNat - 87 else c.toNat - 48

/-- Digits of `n` in base `b + 2` (most significant first), as positional
formatting prints them; the `+ 2` keeps the base at least 2. -/
def digitsB (b : Nat) (n : Nat) : List Char :=
  if _h : n < b + 2 then [digitChar n]
  else digitsB b (n / (b + 2)) ++ [digitChar (n % (b + 2))]
decreasing_by
  exact Nat.div_lt_self (by omega) (by omega)

/-- Read a digit string back into a number; inverse of `digitsB`. -/
def fromDigitsB (b : Nat) (l : List Char) : Nat :=
  l.foldl (fun a c => (b + 2) * a + digitVal c) 0

/-- Python's `{:#x}` rendering of `n`: `0x` followed by lowercase hex digits. -/
def hexChars (n : Nat) : List Char :=
  '0' :: 'x' :: digitsB 14 n

/-- Python's `{:d}` rendering of `n`: decimal digits. -/
def decChars (n : Nat) : List Char :=
  digitsB 8 n

/-- Output file name from `PEDump._write_pe`:
`"PE.{:#x}.{:d}.{:#x}.dmp".format(proc_offset, pid, base)`. -/
def peFileName (procOffset pid base : Nat) : String :=
  String.mk ('P' :: 'E' :: '.' ::
    (hexChars procOffset ++ '.' ::
      (decChars pid ++ '.' ::
        (hexChars base ++ ['.', 'd', 'm', 'p']))))

/-- The exception kinds `PEDump._write_pe` catches at the target boundary:
`IOError`, `exceptions.VolatilityException`, `OverflowError`, `ValueError`. -/
inductive PEErr
  | ioError
  | volatilityException
  | overflowError
  | valueError
deriving DecidableEq

/-- Observable side effects of one run: output-handle operations and log
calls at their three levels (`vollog.debug` / `.warning` / `.error`). -/
inductive Event
  | openFile : String → Event
  | fwrite : Nat → List Nat → Event
  | closeFile : Event
  | logDebug : Event
  | logWarning : Event
  | logError : Event
deriving DecidableEq

/-- `e` is an output-write event. -/
def isWriteEvent : Event → Bool
  | Event.fwrite _ _ => true
  | _ => false

/-- Environment supplied by the external collaborators: whether opening a
given file name raises, whether DOS-header construction at `(layer, base)`
raises, the lazy reconstruction generator's step list at `(layer, base)`
(each step yields one `(file_offset, data)` instruction or raises), whether
a given write raises, whether closing the handle of a given file name raises
an `IOError`, and the session layers' address-validity query. -/
structure DumpEnv where
  openErr : String → Bool
  parseErr : String → Nat → Option PEErr
  recon : String → Nat → List (Except PEErr (Nat × List Nat))
  writeErr : Nat → List Nat → Bool
  closeErr : String → Bool
  isValid : String → Nat → Bool

/-- Outcome of one `_write_pe` call: `ok` returns the preferred file name,
`skipped` is a caught exception turned into a `None` return, and `raised` is
an exception that escapes `_write_pe` uncaught — the `IOError` that
`file_handle.close()` can raise at pedump.py:81, outside the try/except of
lines 54-79 — and therefore propagates into the caller. -/
inductive DumpOutcome
  | ok : String → DumpOutcome
  | skipped : DumpOutcome
  | raised : DumpOutcome
deriving DecidableEq

/-- Drive the `for offset, data in dos_header.reconstruct()` loop: seek and
write each yielded instruction until the generator raises or a write raises.
Returns whether the loop finished and the write events performed (in order). -/
def runWrites (env : DumpEnv) : List (Except PEErr (Nat × List Nat)) → Bool × List Event
  | [] => (true, [])
  | Except.error _ :: _ => (false, [])
  | Except.ok (off, d) :: rest =>
    if env.writeErr off d then (false, [])
    else ((runWrites env rest).1, Event.fwrite off d :: (runWrites env rest).2)

/-- `PEDump._write_pe`: open the output handle, build the DOS header object,
replay the reconstruction instructions into the handle; any exception caught
by the try/except of lines 54-79 logs at debug level and returns `None` (the
handle is not closed).  After the try block, `file_handle.close()` runs
outside any handler (pedump.py:81): if it raises an `IOError` the exception
escapes `_write_pe` uncaught (`DumpOutcome.raised`, no close event); only
when close succeeds is the preferred file name returned. -/
def write_pe (env : DumpEnv) (layer : String) (procOffset pid base : Nat) :
    DumpOutcome × List Event :=
  if env.openErr (peFileName procOffset pid base) then
    (DumpOutcome.skipped, [Event.logDebug])
  else
    match env.parseErr layer base with
    | some _ =>
      (DumpOutcome.skipped,
        [Event.openFile (peFileName procOffset pid base), Event.logDebug])
    | none =>
      if (runWrites env (env.recon layer base)).1 then
        if env.closeErr (peFileName procOffset pid base) then
          (DumpOutcome.raised,
            Event.openFile (peFileName procOffset pid base) ::
              (runWrites env (env.recon layer base)).2)
        else
          (DumpOutcome.ok (peFileName procOffset pid base),
            Event.openFile (peFileName procOffset pid base) ::
              ((runWrites env (env.recon layer base)).2 ++ [Event.closeFile]))
      else
        (DumpOutcome.skipped,
          Event.openFile (peFileName procOffset pid base) ::
            ((runWrites env (env.recon layer base)).2 ++ [Event.logDebug]))

/-- Modelled from the spec: `modules.Modules.find_session_layer` is called by
`PEDump._dump_kernel` but is not part of the staged source.  Per §4.3, the
kernel-module mode searches the candidate session address spaces in
enumeration order and stops at the first one in which the base address is
mapped; `none` when no candidate maps it. -/
def find_session_layer (isValid : String → Nat → Bool) (layers : List String)
    (base : Nat) : Option String :=
  layers.find? (fun l => isValid l base)

/-- Result of driving one of the generator methods: the rows it yielded in
order, the event trace, and whether an uncaught exception escaped it
(aborting the whole run before any remaining target). -/
structure RunOut (ρ : Type) where
  rows : List ρ
  events : List Event
  aborted : Bool

/-- `PEDump._dump_kernel`: resolve the session layer holding `base`; on
success dump once with process offset `0` and the fixed system pid `4`,
yielding one `(4, "Kernel", file_output)` row if the dump succeeds; when no
session layer matches, log one warning and yield nothing.  An uncaught
close-time `IOError` from `_write_pe` propagates out (aborted run). -/
def dump_kernel (env : DumpEnv) (sessionLayers : List String) (base : Nat) :
    RunOut (Nat × String × String) :=
  match find_session_layer env.isValid sessionLayers base with
  | some l =>
    match (write_pe env l 0 4 base).1 with
    | DumpOutcome.ok f =>
      RunOut.mk [(4, "Kernel", f)] (write_pe env l 0 4 base).2 false
    | DumpOutcome.skipped => RunOut.mk [] (write_pe env l 0 4 base).2 false
    | DumpOutcome.raised => RunOut.mk [] (write_pe env l 0 4 base).2 true
  | none => RunOut.mk [] [Event.logWarning] false

/-- One live process as the process-enumeration collaborator yields it:
pid, image file name, object offset and private address-space layer. -/
structure Proc where
  pid : Nat
  name : String
  offset : Nat
  layer : String

/-- Modelled from the spec: `pslist.PsList.create_pid_filter` is not part of
the staged source.  §4.3's process mode applies an optional allow-list filter
on process identifier; an absent or empty list filters nothing. -/
def pidFilter (cfgPid : Option (List Nat)) (p : Nat) : Bool :=
  match cfgPid with
  | none => true
  | some [] => true
  | some l => l.contains p

/-- `PEDump._dump_processes`: walk the enumerated processes that survive the
pid filter, dump each one, and yield a `(pid, name, file_output)` row exactly
for the targets whose dump succeeded, in enumeration order.  A caught
failure skips only its own target; an uncaught close-time `IOError`
propagates out of the generator, so no later target is attempted. -/
def dump_processes (env : DumpEnv) (cfgPid : Option (List Nat)) (base : Nat) :
    List Proc → RunOut (Nat × String × String)
  | [] => RunOut.mk [] [] false
  | p :: rest =>
    if pidFilter cfgPid p.pid then
      match (write_pe env p.layer p.offset p.pid base).1 with
      | DumpOutcome.ok f =>
        RunOut.mk
          ((p.pid, p.name, f) :: (dump_processes env cfgPid base rest).rows)
          ((write_pe env p.layer p.offset p.pid base).2 ++
            (dump_processes env cfgPid base rest).events)
          (dump_processes env cfgPid base rest).aborted
      | DumpOutcome.skipped =>
        RunOut.mk (dump_processes env cfgPid base rest).rows
          ((write_pe env p.layer p.offset p.pid base).2 ++
            (dump_processes env cfgPid base rest).events)
          (dump_processes env cfgPid base rest).aborted
      | DumpOutcome.raised =>
        RunOut.mk [] (write_pe env p.layer p.offset p.pid base).2 true
    else dump_processes env cfgPid base rest

/-- The plugin configuration: required `base`, optional `pid` list, and the
`kernel_module` flag (default false). -/
structure Config where
  base : Nat
  pid : Option (List Nat)
  kernel_module : Bool

/-- Python truthiness of `self.config["pid"]`: absent or the empty list is
falsy. -/
def pidTruthy (c : Config) : Bool :=
  match c.pid with
  | none => false
  | some l => !l.isEmpty

/-- `PEDump._generator`: reject the configuration (with an error log and no
rows) when `kernel_module` and a truthy `pid` are both set or both unset;
otherwise run the selected mode and wrap each of its rows as a depth-0
TreeGrid row. -/
def generator (env : DumpEnv) (procs : List Proc) (sessionLayers : List String)
    (c : Config) : RunOut (Nat × (Nat × String × String)) :=
  if c.kernel_module && pidTruthy c then RunOut.mk [] [Event.logError] false
  else if !c.kernel_module && !pidTruthy c then
    RunOut.mk [] [Event.logError] false
  else if c.kernel_module then
    RunOut.mk
      ((dump_kernel env sessionLayers c.base).rows.map (fun row => (0, row)))
      (dump_kernel env sessionLayers c.base).events
      (dump_kernel env sessionLayers c.base).aborted
  else
    RunOut.mk
      ((dump_processes env c.pid c.base procs).rows.map (fun row => (0, row)))
      (dump_processes env c.pid c.base procs).events
      (dump_processes env c.pid c.base procs).aborted

/-- An address space handle: an identity (the borrowed layer handle) plus its
contents, the byte at each virtual address or `none` where the range is
absent. -/
structure AddressSpace where
  handleId : Nat
  read1 : Nat → Option Nat

/-- One section descriptor of the parsed header: virtual range and the file
range it maps to. -/
structure PESection where
  virtual_start : Nat
  virtual_size : Nat
  file_offset : Nat
  file_size : Nat

/-- The parsed header description: size of the raw header region and the
ordered section mappings. -/
structure HeaderModel where
  header_size : Nat
  sections : List PESection

/-- Read `len` bytes starting at `start`, each present or absent. -/
def readRange (aspace : AddressSpace) (start len : Nat) : List (Option Nat) :=
  (List.range len).map (fun i => aspace.read1 (start + i))

/-- Group a read range into its maximal present runs, each tagged with the
file offset its first byte lands at. -/
def collectRuns : Nat → List (Option Nat) → List (Nat × List Nat)
  | _, [] => []
  | i, none :: rest => collectRuns (i + 1) rest
  | i, some b :: rest =>
    match collectRuns (i + 1) rest with
    | [] => [(i, [b])]
    | (j, run) :: others =>
      if j = i + 1 then (i, b :: run) :: others
      else (i, [b]) :: (j, run) :: others

/-- Modelled from the spec: the reconstruction engine behind
`dos_header.reconstruct()` is not part of the staged source.  Per §4.2 the
first instruction covers the raw header region read as one range (the whole
operation fails when that range is not fully present), then each section's
backing range contributes its present sub-ranges at the corresponding file
offsets, skipping absent memory. -/
def reconstruct (hm : HeaderModel) (aspace : AddressSpace) (base : Nat) :
    Option (List (Nat × List Nat)) :=
  let hdr := readRange aspace base hm.header_size
  if hdr.all Option.isSome then
    some ((0, hdr.reduceOption) ::
      (hm.sections.map (fun s =>
        collectRuns s.file_offset
          (readRange aspace (base + s.virtual_start) s.file_size))).flatten)
  else none

/-- A benign environment for concrete runs: nothing raises, the
reconstruction generator is empty, no session layer maps any address. -/
def defaultEnv : DumpEnv where
  openErr := fun _ => false
  parseErr := fun _ _ => none
  recon := fun _ _ => []
  writeErr := fun _ _ => false
  closeErr := fun _ => false
  isValid := fun _ _ => false

/-- Environment for the kernel-mode scenario: dumps succeed with a single
instruction and only the layer `"s3"` maps the base address. -/
def kernelEnvB : DumpEnv where
  openErr := fun _ => false
  parseErr := fun _ _ => none
  recon := fun _ _ => [Except.ok (0, [77, 90])]
  writeErr := fun _ _ => false
  closeErr := fun _ => false
  isValid := fun l _ => l == "s3"

/-- Environment in which every per-target step succeeds but closing the
output handle named `peFileName 12 3 7` raises an `IOError`. -/
def closeFailEnv : DumpEnv where
  openErr := fun _ => false
  parseErr := fun _ _ => none
  recon := fun _ _ => []
  writeErr := fun _ _ => false
  closeErr := fun s => decide (s = peFileName 12 3 7)
  isValid := fun _ _ => false

theorem digitVal_digitChar : ∀ d, d < 16 → digitVal (digitChar d) = d := by decide

theorem digitChar_ne_dot : ∀ d, d < 16 → digitChar d ≠ '.' := by decide

theorem fromDigitsB_digitsB (b : Nat) (hb : b ≤ 14) :
    ∀ n, fromDigitsB b (digitsB b n) = n := by
  intro n
  induction n using Nat.strong_induction_on with
  | _ n ih =>
    rw [digitsB]
    split
    · next h =>
      simp only [fromDigitsB, List.foldl_cons, List.foldl_nil, Nat.mul_zero,
        Nat.zero_add]
      exact digitVal_digitChar n (by omega)
    · next h =>
      have hlt : n / (b + 2) < n := Nat.div_lt_self (by omega) (by omega)
      have hm : n % (b + 2) < 16 := by
        have := Nat.mod_lt n (show 0 < b + 2 by omega)
        omega
      have ihr := ih _ hlt
      simp only [fromDigitsB, List.foldl_append, List.foldl_cons,
        List.foldl_nil] at ihr ⊢
      rw [ihr, digitVal_digitChar _ hm]
      exact Nat.div_add_mod n (b + 2)

theorem digitsB_inj (b : Nat) (hb : b ≤ 14) {m n : Nat}
    (h : digitsB b m = digitsB b n) : m = n := by
  have h1 := fromDigitsB_digitsB b hb m
  rw [h, fromDigitsB_digitsB b hb n] at h1
  exact h1.symm

theorem dot_not_mem_digitsB (b : Nat) (hb : b ≤ 14) :
    ∀ n, '.' ∉ digitsB b n := by
  intro n
  induction n using Nat.strong_induction_on with
  | _ n ih =>
    rw [digitsB]
    split
    · next h =>
      simp only [List.mem_singleton]
      intro hc
      exact digitChar_ne_dot n (by omega) hc.symm
    · next h =>
      have hlt : n / (b + 2) < n := Nat.div_lt_self (by omega) (by omega)
      have hm : n % (b + 2) < 16 := by
        have := Nat.mod_lt n (show 0 < b + 2 by omega)
        omega
      simp only [List.mem_append, List.mem_singleton]
      rintro (hc | hc)
      · exact ih _ hlt hc
      · exact digitChar_ne_dot _ hm hc.symm

theorem append_dot_cancel :
    ∀ (a1 a2 r1 r2 : List Char), '.' ∉ a1 → '.' ∉ a2 →
      a1 ++ '.' :: r1 = a2 ++ '.' :: r2 → a1 = a2 ∧ r1 = r2 := by
  intro a1
  induction a1 with
  | nil =>
    intro a2 r1 r2 _ h2 h
    cases a2 with
    | nil =>
      simp only [List.nil_append, List.cons.injEq, true_and] at h
      exact ⟨rfl, h⟩
    | cons c t =>
      simp only [List.nil_append, List.cons_append, List.cons.injEq] at h
      exfalso
      apply h2
      rw [h.1]
      exact List.mem_cons_self c t
  | cons c t ih =>
    intro a2 r1 r2 h1 h2 h
    cases a2 with
    | nil =>
      simp only [List.cons_append, List.nil_append, List.cons.injEq] at h
      exfalso
      apply h1
      rw [← h.1]
      exact List.mem_cons_self c t
    | cons d u =>
      simp only [List.cons_append, List.cons.injEq] at h
      have hres := ih u r1 r2 (fun hx => h1 (List.mem_cons_of_mem c hx))
        (fun hx => h2 (List.mem_cons_of_mem d hx)) h.2
      exact ⟨by rw [h.1, hres.1], hres.2⟩

theorem dot_not_mem_hexChars (n : Nat) : '.' ∉ hexChars n := by
  simp only [hexChars, List.mem_cons]
  rintro (h | h | h)
  · exact absurd h (by decide)
  · exact absurd h (by decide)
  · exact dot_not_mem_digitsB 14 (by omega) n h

theorem dot_not_mem_decChars (n : Nat) : '.' ∉ decChars n :=
  dot_not_mem_digitsB 8 (by omega) n

theorem hexChars_inj {m n : Nat} (h : hexChars m = hexChars n) : m = n := by
  simp only [hexChars, List.cons.injEq, true_and] at h
  exact digitsB_inj 14 (by omega) h

theorem decChars_inj {m n : Nat} (h : decChars m = decChars n) : m = n :=
  digitsB_inj 8 (by omega) h

theorem peFileName_inj {o1 p1 b1 o2 p2 b2 : Nat}
    (h : peFileName o1 p1 b1 = peFileName o2 p2 b2) :
    o1 = o2 ∧ p1 = p2 ∧ b1 = b2 := by
  unfold peFileName at h
  injection h with hd
  simp only [List.cons.injEq, true_and] at hd
  obtain ⟨hA, hrest⟩ := append_dot_cancel _ _ _ _ (dot_not_mem_hexChars o1)
    (dot_not_mem_hexChars o2) hd
  obtain ⟨hB, hrest2⟩ := append_dot_cancel _ _ _ _ (dot_not_mem_decChars p1)
    (dot_not_mem_decChars p2) hrest
  obtain ⟨hC, -⟩ := append_dot_cancel _ _ _ _ (dot_not_mem_hexChars b1)
    (dot_not_mem_hexChars b2) hrest2
  exact ⟨hexChars_inj hA, decChars_inj hB, hexChars_inj hC⟩

theorem runWrites_events_are_writes (env : DumpEnv) :
    ∀ steps e, e ∈ (runWrites env steps).2 → isWriteEvent e = true := by
  intro steps
  induction steps with
  | nil =>
    intro e he
    simp [runWrites] at he
  | cons s rest ih =>
    intro e he
    match s with
    | Except.error x =>
      simp [runWrites] at he
    | Except.ok (off, d) =>
      simp only [runWrites] at he
      split at he
      · simp at he
      · simp only [List.mem_cons] at he
        rcases he with he | he
        · rw [he]; rfl
        · exact ih e he

theorem write_pe_skipped_logDebug (env : DumpEnv) (layer : String)
    (procOffset pid base : Nat) :
    (write_pe env layer procOffset pid base).1 = DumpOutcome.skipped →
      Event.logDebug ∈ (write_pe env layer procOffset pid base).2 := by
  unfold write_pe
  split
  · intro _
    simp
  · split
    · intro _
      simp
    · split
      · split
        · intro h
          simp at h
        · intro h
          simp at h
      · intro _
        simp

theorem dump_processes_split (env : DumpEnv) (cfgPid : Option (List Nat))
    (base : Nat) :
    ∀ procs : List Proc, ∃ pre suf, procs = pre ++ suf ∧
      (dump_processes env cfgPid base procs).rows =
        pre.filterMap (fun p =>
          if pidFilter cfgPid p.pid then
            match (write_pe env p.layer p.offset p.pid base).1 with
            | DumpOutcome.ok f => some (p.pid, p.name, f)
            | _ => none
          else none) ∧
      ((dump_processes env cfgPid base procs).aborted = false → suf = []) := by
  intro procs
  induction procs with
  | nil => exact ⟨[], [], rfl, rfl, fun _ => rfl⟩
  | cons p rest ih =>
    obtain ⟨pre, suf, hsplit, hrows, habort⟩ := ih
    cases hf : pidFilter cfgPid p.pid with
    | false =>
      refine ⟨p :: pre, suf, by rw [List.cons_append, hsplit], ?_, ?_⟩
      · simp only [dump_processes, hf, Bool.false_eq_true, if_false,
          List.filterMap_cons, hrows]
      · intro ha
        apply habort
        simpa only [dump_processes, hf, Bool.false_eq_true, if_false] using ha
    | true =>
      cases hw : (write_pe env p.layer p.offset p.pid base).1 with
      | ok f =>
        refine ⟨p :: pre, suf, by rw [List.cons_append, hsplit], ?_, ?_⟩
        · simp only [dump_processes, hf, if_true, hw, List.filterMap_cons,
            hrows]
        · intro ha
          apply habort
          simpa only [dump_processes, hf, if_true, hw] using ha
      | skipped =>
        refine ⟨p :: pre, suf, by rw [List.cons_append, hsplit], ?_, ?_⟩
        · simp only [dump_processes, hf, if_true, hw, List.filterMap_cons,
            hrows]
        · intro ha
          apply habort
          simpa only [dump_processes, hf, if_true, hw] using ha
      | raised =>
        refine ⟨[], p :: rest, rfl, ?_, ?_⟩
        · simp only [dump_processes, hf, if_true, hw, List.filterMap_nil]
        · intro ha
          simp only [dump_processes, hf, if_true, hw] at ha
          exact absurd ha (by decide)

/-- Claim C1: when the `kernel_module` flag and a truthy process-id filter
are both active, or both inactive, `_generator` reports the configuration
error and aborts before any target work: it produces zero result rows and
its only side effect is the single error log (in particular no target is
attempted: no open, write, close or debug/warning events occur). -/
theorem config_validation_aborts (env : DumpEnv) (procs : List Proc)
    (layers : List String) (c : Config)
    (h : (c.kernel_module && pidTruthy c) = true ∨
      (c.kernel_module = false ∧ pidTruthy c = false)) :
    generator env procs layers c = RunOut.mk [] [Event.logError] false := by
  rcases h with h | ⟨h1, h2⟩
  · simp [generator, h]
  · simp [generator, h1, h2]

/-- Witness for C1: both the pid filter and `kernel_module` set. -/
theorem config_validation_aborts_witness :
    generator defaultEnv [] [] (Config.mk 0 (some [1]) true) =
      RunOut.mk [] [Event.logError] false :=
  config_validation_aborts defaultEnv [] [] (Config.mk 0 (some [1]) true)
    (Or.inl (by decide))

/-- With open, parse and an empty reconstruction step list all succeeding,
`_write_pe` reaches `file_handle.close()`: the outcome is decided by whether
close raises. -/
theorem write_pe_close_decides (env : DumpEnv) (layer : String)
    (procOffset pid base : Nat)
    (ho : env.openErr (peFileName procOffset pid base) = false)
    (hq : env.parseErr layer base = none)
    (hr : env.recon layer base = []) :
    write_pe env layer procOffset pid base =
      if env.closeErr (peFileName procOffset pid base) then
        (DumpOutcome.raised, [Event.openFile (peFileName procOffset pid base)])
      else
        (DumpOutcome.ok (peFileName procOffset pid base),
          [Event.openFile (peFileName procOffset pid base),
            Event.closeFile]) := by
  unfold write_pe
  rw [ho, hq, hr]
  simp only [runWrites, Bool.false_eq_true, if_false, if_true,
    List.nil_append]

/-- Generic shape of the isolation failure: a first target whose dump raises
uncaught (close-time `IOError`) followed by a second target whose own dump
succeeds yields no rows at all, while the sibling-independent per-target
characterization predicts one row for the second target. -/
theorem isolation_fails_of_raise (env : DumpEnv) (pA pB : Proc) (base : Nat)
    (hA : (write_pe env pA.layer pA.offset pA.pid base).1 =
      DumpOutcome.raised)
    (f : String)
    (hB : (write_pe env pB.layer pB.offset pB.pid base).1 =
      DumpOutcome.ok f) :
    (dump_processes env none base [pA, pB]).rows ≠
      [pA, pB].filterMap (fun p =>
        if pidFilter none p.pid then
          match (write_pe env p.layer p.offset p.pid base).1 with
          | DumpOutcome.ok f => some (p.pid, p.name, f)
          | _ => none
        else none) := by
  simp only [dump_processes, List.filterMap_cons, List.filterMap_nil,
    pidFilter, if_true, hA, hB]
  exact fun h => List.noConfusion h

/-- Counterexample to C2 as stated: with every try-block step succeeding but
`file_handle.close()` raising an `IOError` for the first target's output
file (close at pedump.py:81 is outside the try/except of lines 54-79), the
first target's output-I/O failure is not converted into "no row, continue":
it propagates and aborts the batch, so the second target — whose own dump
would succeed — contributes no row either.  The sibling-independent
per-target row characterization the claim asserts is therefore false at
this concrete input. -/
theorem per_target_isolation_cex :
    (dump_processes closeFailEnv none 7
        [Proc.mk 3 "smss" 12 "la", Proc.mk 4 "sys" 2048 "lb"]).rows ≠
      [Proc.mk 3 "smss" 12 "la", Proc.mk 4 "sys" 2048 "lb"].filterMap
        (fun p =>
          if pidFilter none p.pid then
            match (write_pe closeFailEnv p.layer p.offset p.pid 7).1 with
            | DumpOutcome.ok f => some (p.pid, p.name, f)
            | _ => none
          else none) := by
  have hne : peFileName 2048 4 7 ≠ peFileName 12 3 7 := by
    intro h
    obtain ⟨h1, -, -⟩ := peFileName_inj h
    omega
  have hcA : closeFailEnv.closeErr (peFileName 12 3 7) = true :=
    decide_eq_true rfl
  have hcB : closeFailEnv.closeErr (peFileName 2048 4 7) = false :=
    decide_eq_false hne
  have hA : (write_pe closeFailEnv "la" 12 3 7).1 = DumpOutcome.raised := by
    rw [write_pe_close_decides closeFailEnv "la" 12 3 7 rfl rfl rfl, hcA]
    rfl
  have hB : (write_pe closeFailEnv "lb" 2048 4 7).1 =
      DumpOutcome.ok (peFileName 2048 4 7) := by
    rw [write_pe_close_decides closeFailEnv "lb" 2048 4 7 rfl rfl rfl, hcB]
    rfl
  exact isolation_fails_of_raise closeFailEnv (Proc.mk 3 "smss" 12 "la")
    (Proc.mk 4 "sys" 2048 "lb") 7 hA (peFileName 2048 4 7) hB

/-- Claim C2 (amended): per-target error isolation holds for the exceptions
the try/except of pedump.py:54-79 catches (open, header parse,
reconstruction iteration, seek/write failures): when no uncaught close-time
failure aborts the batch, the rows of `_dump_processes` are exactly the
sibling-independent `filterMap` of each target's own outcome — a caught
failure yields no row for its target, is logged at debug level, and never
aborts a sibling.  An `IOError` raised by `file_handle.close()` at
pedump.py:81, outside the try block, is excluded: it propagates uncaught
and aborts the batch. -/
theorem per_target_isolation_amended (env : DumpEnv)
    (cfgPid : Option (List Nat)) (base : Nat) (procs : List Proc) :
    ((dump_processes env cfgPid base procs).aborted = false →
      (dump_processes env cfgPid base procs).rows =
        procs.filterMap (fun p =>
          if pidFilter cfgPid p.pid then
            match (write_pe env p.layer p.offset p.pid base).1 with
            | DumpOutcome.ok f => some (p.pid, p.name, f)
            | _ => none
          else none)) ∧
    (∀ layer procOffset pid b,
      (write_pe env layer procOffset pid b).1 = DumpOutcome.skipped →
        Event.logDebug ∈ (write_pe env layer procOffset pid b).2) := by
  constructor
  · intro ha
    obtain ⟨pre, suf, hsplit, hrows, habort⟩ :=
      dump_processes_split env cfgPid base procs
    rw [hrows, hsplit, habort ha, List.append_nil]
  · exact fun layer procOffset pid b =>
      write_pe_skipped_logDebug env layer procOffset pid b

/-- Claim C3: in kernel-module mode, when no candidate session layer maps the
base address, `_dump_kernel` yields zero rows and its only side effect is
exactly one warning log. -/
theorem kernel_no_session_warns (env : DumpEnv) (layers : List String)
    (base : Nat) (h : ∀ l ∈ layers, env.isValid l base = false) :
    dump_kernel env layers base = RunOut.mk [] [Event.logWarning] false := by
  have hf : find_session_layer env.isValid layers base = none := by
    rw [find_session_layer, List.find?_eq_none]
    intro l hl
    simp [h l hl]
  simp [dump_kernel, hf]

/-- Witness for C3: two candidate session layers, neither maps the base. -/
theorem kernel_no_session_warns_witness :
    dump_kernel defaultEnv ["s1", "s2"] 7 =
      RunOut.mk [] [Event.logWarning] false :=
  kernel_no_session_warns defaultEnv ["s1", "s2"] 7 (fun _ _ => rfl)

/-- Claim C4: in kernel-module mode, when a session layer resolves and the
dump succeeds, the result is exactly one row with identity `4` and label
`"Kernel"`, carrying the produced output reference. -/
theorem kernel_success_single_row (env : DumpEnv) (layers : List String)
    (base : Nat) (l f : String)
    (hfind : find_session_layer env.isValid layers base = some l)
    (hdump : (write_pe env l 0 4 base).1 = DumpOutcome.ok f) :
    (dump_kernel env layers base).rows = [(4, "Kernel", f)] := by
  simp [dump_kernel, hfind, hdump]

/-- Witness for C4 (Scenario B): the base maps only in the third enumerated
session candidate and the dump succeeds. -/
theorem kernel_success_single_row_witness :
    (dump_kernel kernelEnvB ["s1", "s2", "s3"] 4096).rows =
      [(4, "Kernel", peFileName 0 4 4096)] :=
  kernel_success_single_row kernelEnvB ["s1", "s2", "s3"] 4096 "s3"
    (peFileName 0 4 4096) (by rfl) (by rfl)

/-- Claim C5: kernel-module target resolution is first-match: with the
candidates enumerated as `pre ++ l :: post`, if the base address is mapped in
no member of `pre` but is mapped in `l`, the resolver returns `l`, never a
later candidate. -/
theorem find_session_layer_first_match (isValid : String → Nat → Bool)
    (base : Nat) (pre post : List String) (l : String)
    (hpre : ∀ x ∈ pre, isValid x base = false) (hl : isValid l base = true) :
    find_session_layer isValid (pre ++ l :: post) base = some l := by
  induction pre with
  | nil =>
    simp [find_session_layer, List.find?_cons, hl]
  | cons x xs ih =>
    have hx : isValid x base = false := hpre x (List.mem_cons_self x xs)
    simp only [List.cons_append, find_session_layer, List.find?_cons, hx,
      Bool.false_eq_true, if_false]
    exact ih (fun y hy => hpre y (List.mem_cons_of_mem x hy))

/-- Witness for C5: the second of three candidates is the first match. -/
theorem find_session_layer_first_match_witness :
    find_session_layer (fun s _ => s == "s2") (["s1"] ++ "s2" :: ["s3"]) 0 =
      some "s2" :=
  find_session_layer_first_match (fun s _ => s == "s2") 0 ["s1"] ["s3"] "s2"
    (by decide) (by decide)

/-- Claim C6: in process mode, `_generator`'s result rows are exactly the
per-target outcomes in the resolver's enumeration order (a `filterMap` over
an enumeration-order prefix of the targets, each row wrapped at tree depth
0): no reordering or sorting happens between target resolution and the
final sequence, and whenever the run is not aborted by an uncaught
close-time failure the prefix is the whole target list. -/
theorem rows_preserve_resolver_order (env : DumpEnv) (procs : List Proc)
    (layers : List String) (c : Config)
    (hk : c.kernel_module = false) (hp : pidTruthy c = true) :
    ∃ pre suf, procs = pre ++ suf ∧
      (generator env procs layers c).rows =
        (pre.filterMap (fun p =>
          if pidFilter c.pid p.pid then
            match (write_pe env p.layer p.offset p.pid c.base).1 with
            | DumpOutcome.ok f => some (p.pid, p.name, f)
            | _ => none
          else none)).map (fun row => ((0 : Nat), row)) ∧
      ((generator env procs layers c).aborted = false → suf = []) := by
  obtain ⟨pre, suf, hsplit, hrows, habort⟩ :=
    dump_processes_split env c.pid c.base procs
  have hg : (generator env procs layers c).rows =
      (dump_processes env c.pid c.base procs).rows.map
        (fun row => ((0 : Nat), row)) := by
    simp [generator, hk, hp]
  have hga : (generator env procs layers c).aborted =
      (dump_processes env c.pid c.base procs).aborted := by
    simp [generator, hk, hp]
  refine ⟨pre, suf, hsplit, ?_, ?_⟩
  · rw [hg, hrows]
  · intro ha
    rw [hga] at ha
    exact habort ha

/-- Witness for C6: one matching process in process mode, not aborted. -/
theorem rows_preserve_resolver_order_witness :
    ∃ pre suf, [Proc.mk 4 "System" 2048 "l1"] = pre ++ suf ∧
      (generator defaultEnv [Proc.mk 4 "System" 2048 "l1"] []
          (Config.mk 0 (some [4]) false)).rows =
        (pre.filterMap (fun p =>
          if pidFilter (Config.mk 0 (some [4]) false).pid p.pid then
            match (write_pe defaultEnv p.layer p.offset p.pid
                (Config.mk 0 (some [4]) false).base).1 with
            | DumpOutcome.ok f => some (p.pid, p.name, f)
            | _ => none
          else none)).map (fun row => ((0 : Nat), row)) ∧
      ((generator defaultEnv [Proc.mk 4 "System" 2048 "l1"] []
          (Config.mk 0 (some [4]) false)).aborted = false → suf = []) :=
  rows_preserve_resolver_order defaultEnv [Proc.mk 4 "System" 2048 "l1"] []
    (Config.mk 0 (some [4]) false) rfl rfl

/-- Claim C7: the output file name is a deterministic function of the base
address, the target identity (process object offset) and the pid, and two
distinct targets of one run (same base, different offset/pid pair) always
receive distinct names. -/
theorem peFileName_no_collision (o1 p1 o2 p2 b : Nat)
    (h : (o1, p1) ≠ (o2, p2)) :
    peFileName o1 p1 b ≠ peFileName o2 p2 b := by
  intro he
  obtain ⟨ho, hp, -⟩ := peFileName_inj he
  exact h (by rw [ho, hp])

/-- Witness for C7: two targets differing in process object offset. -/
theorem peFileName_no_collision_witness :
    peFileName 1 2 5 ≠ peFileName 3 2 5 :=
  peFileName_no_collision 1 2 3 2 5 (by decide)

/-- Claim C8: reconstruction is deterministic: it depends only on the
address-space contents (the `read1` map) and the base address, never on the
borrowed handle's identity, so two invocations over the same contents
produce bit-identical write-instruction sequences. -/
theorem reconstruct_deterministic (hm : HeaderModel) (a1 a2 : AddressSpace)
    (base : Nat) (h : a1.read1 = a2.read1) :
    reconstruct hm a1 base = reconstruct hm a2 base := by
  simp only [reconstruct, readRange, h]

/-- Witness for C8: two handles with distinct identities but identical
contents reconstruct identically. -/
theorem reconstruct_deterministic_witness :
    (AddressSpace.mk 1 (fun _ => some 0)).read1 =
        (AddressSpace.mk 2 (fun _ => some 0)).read1 ∧
      reconstruct (HeaderModel.mk 4 []) (AddressSpace.mk 1 (fun _ => some 0)) 0 =
        reconstruct (HeaderModel.mk 4 []) (AddressSpace.mk 2 (fun _ => some 0)) 0 :=
  ⟨rfl, reconstruct_deterministic (HeaderModel.mk 4 [])
    (AddressSpace.mk 1 (fun _ => some 0)) (AddressSpace.mk 2 (fun _ => some 0))
    0 rfl⟩

/-- Claim C9: kernel-module mode emits at most one row, whatever the
environment and candidate list, and any row it emits has identity `4`. -/
theorem kernel_at_most_one_row (env : DumpEnv) (layers : List String)
    (base : Nat) :
    (dump_kernel env layers base).rows.length ≤ 1 ∧
      ∀ row ∈ (dump_kernel env layers base).rows, row.1 = 4 := by
  unfold dump_kernel
  cases hfind : find_session_layer env.isValid layers base with
  | none => simp
  | some l =>
    cases hw : (write_pe env l 0 4 base).1 with
    | ok f => simp [hw]
    | skipped => simp [hw]
    | raised => simp [hw]

/-- Claim C10: output-handle lifecycle in `_write_pe`.  Either the target is
skipped by a caught exception, in which case `close` is never called and the
trace is the bare debug log (open itself raised) or starts with the open
event (the handle was created before parsing, and possibly partially
written); or the close call itself raises uncaught, in which case the handle
was opened, every later event is a write, and no close event occurred; or
the dump fully succeeds, in which case the trace is exactly open, then the
write events, then one final close after all writes. -/
theorem write_pe_handle_lifecycle (env : DumpEnv) (layer : String)
    (procOffset pid base : Nat) :
    ((write_pe env layer procOffset pid base).1 = DumpOutcome.skipped ∧
      Event.closeFile ∉ (write_pe env layer procOffset pid base).2 ∧
      ((write_pe env layer procOffset pid base).2.head? =
          some (Event.openFile (peFileName procOffset pid base)) ∨
        (write_pe env layer procOffset pid base).2 = [Event.logDebug])) ∨
    (∃ ws, (write_pe env layer procOffset pid base).1 = DumpOutcome.raised ∧
      (write_pe env layer procOffset pid base).2 =
        Event.openFile (peFileName procOffset pid base) :: ws ∧
      Event.closeFile ∉ (write_pe env layer procOffset pid base).2 ∧
      ∀ e ∈ ws, isWriteEvent e = true) ∨
    (∃ ws, (write_pe env layer procOffset pid base).1 =
        DumpOutcome.ok (peFileName procOffset pid base) ∧
      (write_pe env layer procOffset pid base).2 =
        Event.openFile (peFileName procOffset pid base) ::
          (ws ++ [Event.closeFile]) ∧
      ∀ e ∈ ws, isWriteEvent e = true) := by
  unfold write_pe
  split
  · left
    exact ⟨rfl, by decide, Or.inr rfl⟩
  · split
    · left
      refine ⟨rfl, by simp, Or.inl rfl⟩
    · split
      · split
        · right
          left
          refine ⟨(runWrites env (env.recon layer base)).2, rfl, rfl, ?_, ?_⟩
          · intro hmem
            simp only [List.mem_cons] at hmem
            rcases hmem with h1 | h2
            · exact absurd h1 (by simp)
            · have := runWrites_events_are_writes env (env.recon layer base)
                Event.closeFile h2
              simp [isWriteEvent] at this
          · exact fun e he =>
              runWrites_events_are_writes env (env.recon layer base) e he
        · right
          right
          exact ⟨(runWrites env (env.recon layer base)).2, rfl, rfl,
            fun e he => runWrites_events_are_writes env (env.recon layer base) e he⟩
      · left
        refine ⟨rfl, ?_, Or.inl rfl⟩
        intro hmem
        simp only [List.mem_cons, List.mem_append, List.mem_singleton] at hmem
        rcases hmem with h1 | h2 | h3
        · exact absurd h1 (by simp)
        · have := runWrites_events_are_writes env (env.recon layer base)
            Event.closeFile h2
          simp [isWriteEvent] at this
        · exact absurd h3 (by decide)
